import Mathlib

/-!
Shallow embedding of the background-task core of the js-mcp server:
the foreground command executor (src/utils.ts, part_006), the background
classifier and supervisor (src/background.ts, part_003), and the
stop/cleanup handlers (src/tools/background.ts, src/server.ts).

JavaScript strings are modelled as Lean `String`; the JS string
primitives the source uses (`includes`, `startsWith`, `toLowerCase`,
`split`, `trim`, `join`) are reimplemented structurally over `List Char`
so that every definition evaluates inside the kernel.
-/

namespace JsMcp

/-- Test whether the first char list is a prefix of the second
(JS `startsWith` on char lists). -/
def chStarts : List Char → List Char → Bool
  | [], _ => true
  | _ :: _, [] => false
  | a :: as, b :: bs => a == b && chStarts as bs

/-- Test whether the first char list occurs contiguously in the second
(JS `includes` on char lists). -/
def chContains (sub : List Char) : List Char → Bool
  | [] => sub.isEmpty
  | l@(_ :: rest) => chStarts sub l || chContains sub rest

/-- Model of JS `s.includes(sub)`. -/
def strIncludes (s sub : String) : Bool := chContains sub.data s.data

/-- Model of JS `s.startsWith(pre)`. -/
def strStartsWith (s pre : String) : Bool := chStarts pre.data s.data

/-- Model of JS `s.toLowerCase()` (ASCII case folding, which is all the source
relies on). -/
def lowerString (s : String) : String := ⟨s.data.map Char.toLower⟩

/-- Model of JS `data.split(newline)` on char lists, with an accumulator for the
current segment. -/
def splitNlAux (acc : List Char) : List Char → List (List Char)
  | [] => [acc.reverse]
  | c :: cs => if c == '\n' then acc.reverse :: splitNlAux [] cs else splitNlAux (c :: acc) cs

/-- JS truthiness of `line.trim()`: the line contains some non-whitespace character. -/
def keepLine (l : List Char) : Bool := l.any (fun c => !c.isWhitespace)

/-- Line splitting used by `addToOutput` (part_003 line 35): split the chunk on
newlines and keep only the lines whose trim is non-empty. -/
def splitLines (data : String) : List String :=
  ((splitNlAux [] data.data).filter keepLine).map (fun l => ⟨l⟩)

/-- Model of JS `args.join(sep)`. -/
def joinWith (sep : String) : List String → String
  | [] => ""
  | [a] => a
  | a :: b :: rest => a ++ sep ++ joinWith sep (b :: rest)

/-- Model of JS `s.trim()`: strip whitespace from both ends. -/
def trimString (s : String) : String :=
  ⟨((s.data.dropWhile Char.isWhitespace).reverse.dropWhile Char.isWhitespace).reverse⟩

/-! ## Background classifier (shouldAutoDetectBackground, part_003 lines 93-140) -/

/-- The exclusions array of the classifier (part_003 lines 97-103). -/
def exclusions : List String :=
  ["cleanup", "clean", "reset", "install", "build", "compile", "bundle",
   "lint", "format", "test", "deploy", "publish", "release", "prepare",
   "postinstall", "preinstall", "prebuild", "postbuild", "verify",
   "check", "validate", "audit", "update", "upgrade", "migration",
   "migrate", "seed", "init", "setup", "config", "configure"]

/-- The backgroundIndicators array (part_003 line 116). -/
def backgroundIndicators : List String := ["dev", "start", "serve", "watch"]

/-- The exclusion loop of part_003 lines 106-113: the name equals an exclusion
keyword or starts with it followed by a colon, dash or underscore. -/
def exclusionPrefixHit (name : String) : Bool :=
  exclusions.any (fun e =>
    name == e || strStartsWith name (e ++ ":") ||
    strStartsWith name (e ++ "-") || strStartsWith name (e ++ "_"))

/-- The six separator-adjacent pairings of an indicator with an exclusion keyword
(part_003 lines 124-129). -/
def pairedWith (name ind e : String) : Bool :=
  strIncludes name (ind ++ "-" ++ e) || strIncludes name (ind ++ "_" ++ e) ||
  strIncludes name (ind ++ ":" ++ e) || strIncludes name (e ++ "-" ++ ind) ||
  strIncludes name (e ++ "_" ++ ind) || strIncludes name (e ++ ":" ++ ind)

/-- Predicate isCleanupVariant of part_003 lines 122-131: some exclusion keyword is
a substring of the name and is separator-adjacent to the indicator. -/
def isCleanupVariant (name ind : String) : Bool :=
  exclusions.any (fun e => strIncludes name e && pairedWith name ind e)

/-- The indicator loop of part_003 lines 118-137: some indicator is contained in
the name and is not a cleanup variant. -/
def indicatorHit (name : String) : Bool :=
  backgroundIndicators.any (fun ind => strIncludes name ind && !isCleanupVariant name ind)

/-- Classifier shouldAutoDetectBackground (part_003 lines 93-140). -/
def shouldAutoDetectBackground (scriptName : String) : Bool :=
  let name := lowerString scriptName
  if exclusionPrefixHit name then false else indicatorHit name

/-! ## Basic lemmas about the string helpers -/

theorem chStarts_append (p r : List Char) : chStarts p (p ++ r) = true := by
  induction p with
  | nil => rfl
  | cons a as ih => simp [chStarts, ih]

theorem string_data_append (a b : String) : (a ++ b).data = a.data ++ b.data := rfl

theorem strStartsWith_append (p r : String) : strStartsWith (p ++ r) p = true := by
  simp [strStartsWith, string_data_append, chStarts_append]

theorem chStarts_append_of (p a r : List Char) (h : chStarts p a = true) :
    chStarts p (a ++ r) = true := by
  induction p generalizing a with
  | nil => rfl
  | cons c cs ih =>
    cases a with
    | nil => simp [chStarts] at h
    | cons b bs =>
      simp [chStarts] at h ⊢
      exact ⟨h.1, ih bs h.2⟩

/-! ## Facade timeout selection (script.ts lines 39-43, test.ts line 28) -/

/-- Foreground timeout chosen by the run-script tool (script.ts lines 40-42):
60 s when the lower-cased name contains "e2e" or "test", 30 s otherwise. -/
def scriptTimeoutMs (scriptName : String) : Nat :=
  if strIncludes (lowerString scriptName) "e2e" || strIncludes (lowerString scriptName) "test"
  then 60000 else 30000

/-- Foreground timeout chosen by the run-tests tool (test.ts line 28): the
caller-supplied timeout if any, else 90 s for names containing "e2e", else 30 s. -/
def testToolTimeoutMs (testScript : String) (timeout : Option Nat) : Nat :=
  match timeout with
  | some t => t
  | none => if strIncludes (lowerString testScript) "e2e" then 90000 else 30000

/-! ## Lists and predicates taken from the words of the spec (for comparison) -/

/-- The exclusion-keyword list exactly as the spec and claim C4 enumerate it
(the exclusions array of the source additionally contains "install"). -/
def specExclusionKeywords : List String :=
  ["cleanup", "clean", "reset", "build", "compile", "bundle", "lint", "format",
   "test", "deploy", "publish", "release", "prepare", "preinstall", "postinstall",
   "prebuild", "postbuild", "verify", "check", "validate", "audit", "update",
   "upgrade", "migration", "migrate", "seed", "init", "setup", "config", "configure"]

/-- Some exclusion keyword of the list in the source is separator-adjacent to
`ind` in `name`. -/
def hasAdjacentExclusion (name ind : String) : Bool :=
  exclusions.any (fun e => pairedWith name ind e)

/-- Stated from the words of claim C5: the name contains a background indicator
with no exclusion keyword of the spec list separator-adjacent to that indicator. -/
def c5ClaimHypothesis (name : String) : Bool :=
  backgroundIndicators.any (fun ind =>
    strIncludes name ind && !(specExclusionKeywords.any (fun e => pairedWith name ind e)))

theorem specExclusion_mem (k : String) (hk : k ∈ specExclusionKeywords) :
    k ∈ exclusions := by
  fin_cases hk <;> decide

theorem cleanupVariant_imp_adjacent (name ind : String)
    (h : isCleanupVariant name ind = true) : hasAdjacentExclusion name ind = true := by
  rcases List.any_eq_true.mp h with ⟨e, he, hp⟩
  rw [Bool.and_eq_true] at hp
  exact List.any_eq_true.mpr ⟨e, he, hp.2⟩

end JsMcp

/-- Sanity check: documented positive and negative scenarios of the classifier. -/
example : JsMcp.shouldAutoDetectBackground "dev" = true := by decide

example : JsMcp.shouldAutoDetectBackground "server-dev" = true := by decide

example : JsMcp.shouldAutoDetectBackground "dev-cleanup" = false := by decide

example : JsMcp.shouldAutoDetectBackground "build-watch" = false := by decide

namespace JsMcp

/-- Claim C3 — behaviour of the code at the documented input: the scenario list of
the repository (part_000 line 44) documents testdev as excluded (foreground), but
shouldAutoDetectBackground applied to "testdev" evaluates to true: no exclusion
matches at a separator boundary and no separator-adjacent pairing exists, so the
dev indicator wins. -/
theorem C3_testdev_runs_background : shouldAutoDetectBackground "testdev" = true := by
  decide

/-- Claim C4 — for every exclusion keyword of the spec list, every script name
whose lower-cased form equals that keyword or starts with it followed by a colon,
dash or underscore is classified foreground, regardless of any background
indicator also present. -/
theorem C4_exclusions_win (k sep rest s : String)
    (hk : k ∈ specExclusionKeywords) (hsep : sep ∈ [":", "-", "_"])
    (h : lowerString s = k ∨ lowerString s = k ++ sep ++ rest) :
    shouldAutoDetectBackground s = false := by
  have hmem : k ∈ exclusions := specExclusion_mem k hk
  have hhit : exclusionPrefixHit (lowerString s) = true := by
    refine List.any_eq_true.mpr ⟨k, hmem, ?_⟩
    rcases h with h | h
    · simp [h]
    · fin_cases hsep <;> simp [h, strStartsWith_append]
  simp [shouldAutoDetectBackground, hhit]

/-- Witness for C4 at test-dev (exclusion test, separator dash, indicator dev). -/
theorem C4_exclusions_win_witness : shouldAutoDetectBackground "test-dev" = false :=
  C4_exclusions_win "test" "-" "dev" "test-dev" (by decide) (by decide) (Or.inr (by decide))

/-- Claim C5 counterexample — test-a-dev satisfies the hypothesis of the claim
(contains the indicator dev, and no exclusion keyword is separator-adjacent to
it), yet the classifier returns false, because the name starts with test- and the
prefix-exclusion check fires first. -/
theorem C5_counterexample :
    c5ClaimHypothesis (lowerString "test-a-dev") = true ∧
    shouldAutoDetectBackground "test-a-dev" = false := by
  decide

/-- Claim C5 amended — a script name containing a background indicator with no
exclusion keyword of the list in the source separator-adjacent to that indicator
is classified background, provided the name does not equal an exclusion keyword
or start with one followed by a colon, dash or underscore. -/
theorem C5_amended_thm (s : String)
    (h1 : exclusionPrefixHit (lowerString s) = false)
    (h2 : backgroundIndicators.any (fun ind =>
        strIncludes (lowerString s) ind && !hasAdjacentExclusion (lowerString s) ind) = true) :
    shouldAutoDetectBackground s = true := by
  rcases List.any_eq_true.mp h2 with ⟨ind, hmem, hind⟩
  rw [Bool.and_eq_true] at hind
  rcases hind with ⟨hinc, hnadj⟩
  have hcv : isCleanupVariant (lowerString s) ind = false := by
    rcases hb : isCleanupVariant (lowerString s) ind with _ | _
    · rfl
    · simp [cleanupVariant_imp_adjacent _ _ hb] at hnadj
  have hhit : indicatorHit (lowerString s) = true :=
    List.any_eq_true.mpr ⟨ind, hmem, by simp [hinc, hcv]⟩
  simp [shouldAutoDetectBackground, h1, hhit]

/-- Witness for the amended C5 at server-dev. -/
theorem C5_amended_witness : shouldAutoDetectBackground "server-dev" = true :=
  C5_amended_thm "server-dev" (by decide) (by decide)

/-- Claim C8 counterexample — run-script gives an e2e script 60 s where the claim
says 90 s, and run-tests gives a name containing test 30 s where the claim says
60 s. -/
theorem C8_counterexample :
    scriptTimeoutMs "e2e" = 60000 ∧ scriptTimeoutMs "e2e" ≠ 90000 ∧
    testToolTimeoutMs "my-test" none = 30000 ∧ testToolTimeoutMs "my-test" none ≠ 60000 := by
  decide

/-- Claim C8 amended — with no caller-supplied timeout, run-script passes
60,000 ms for names containing e2e or test and 30,000 ms otherwise, while
run-tests passes 90,000 ms for names containing e2e and 30,000 ms otherwise; a
caller-supplied timeout is passed through unchanged by run-tests. -/
theorem C8_amended_thm (s : String) :
    (strIncludes (lowerString s) "e2e" = false → strIncludes (lowerString s) "test" = false →
        scriptTimeoutMs s = 30000)
    ∧ (strIncludes (lowerString s) "e2e" = false → testToolTimeoutMs s none = 30000)
    ∧ (strIncludes (lowerString s) "e2e" = true →
        scriptTimeoutMs s = 60000 ∧ testToolTimeoutMs s none = 90000)
    ∧ (strIncludes (lowerString s) "test" = true → scriptTimeoutMs s = 60000)
    ∧ (∀ t : Nat, testToolTimeoutMs s (some t) = t) := by
  refine ⟨?_, ?_, ?_, ?_, ?_⟩ <;> intros <;> simp_all [scriptTimeoutMs, testToolTimeoutMs]

/-- Witness for the amended C8: the default test script gets 30 s from run-tests
even though its name contains test, and an e2e script gets 60 s from run-script
but 90 s from run-tests. -/
theorem C8_amended_witness :
    testToolTimeoutMs "test" none = 30000
    ∧ (scriptTimeoutMs "e2e" = 60000 ∧ testToolTimeoutMs "e2e" none = 90000) :=
  ⟨(C8_amended_thm "test").2.1 (by decide), (C8_amended_thm "e2e").2.2.1 (by decide)⟩

/-! ## Background task records and their mutations -/

/-- Lifecycle status of a background task (types.ts line 38). -/
inductive Status where
  | running
  | stopped
  | failed
deriving DecidableEq

/-- A BackgroundTask record (types.ts lines 30-39). The opaque process handle is
modelled by two facts about it the source reads or produces: the Node
ChildProcess.killed flag, which becomes true once kill() has successfully sent a
signal, and the list of signals delivered so far. -/
structure Task where
  id : String
  command : String
  args : List String
  cwd : String
  output : List String
  startTime : Nat
  status : Status
  killed : Bool
  signals : List String

/-- Trimming step of addToOutput (part_003 lines 37-40): keep only the last 100
lines once the buffer exceeds 100. -/
def trimTo100 (out : List String) : List String :=
  if out.length > 100 then out.drop (out.length - 100) else out

/-- Function addToOutput (part_003 lines 34-41): split the chunk into non-empty
lines, append them, and trim to the most recent 100. -/
def addToOutput (output : List String) (data : String) : List String :=
  trimTo100 (output ++ splitLines data)

/-- Rendering of a nullable exit code inside a JS template literal. -/
def codeStr : Option Int → String
  | some n => toString n
  | none => "null"

/-- The operations that mutate one task record after registration:
stdout/stderr chunks and the exit callback (part_003 lines 53-78), the
stop-background-task handler and its 5 s escalation timer (background.ts
lines 166-182, assuming the kill call succeeds), and the shutdown cleanup
(server.ts lines 27-38). -/
inductive TaskOp where
  | stdoutChunk (data : String)
  | stderrChunk (data : String)
  | procExit (code : Option Int)
  | stopOp (force : Bool) (runtime : Nat)
  | forceKillTimer
  | shutdownCleanup

/-- Effect of one operation on a task record, straight from the handlers cited
in the TaskOp doc comment. -/
def applyOp (t : Task) : TaskOp → Task
  | .stdoutChunk d => { t with output := addToOutput t.output d }
  | .stderrChunk d => { t with output := addToOutput t.output ("[STDERR] " ++ d) }
  | .procExit c =>
      { t with status := if c == (some 0 : Option Int) then .stopped else .failed,
               output := addToOutput t.output ("[PROCESS] Process exited with code " ++ codeStr c) }
  | .stopOp force runtime =>
      match t.status with
      | .running =>
          { t with killed := true, status := .stopped,
                   signals := t.signals ++ [if force then "SIGKILL" else "SIGTERM"],
                   output := t.output ++
                     ["[SYSTEM] Process terminated with "
                        ++ (if force then "SIGKILL" else "SIGTERM")
                        ++ " after " ++ toString runtime ++ "s"] }
      | _ => t
  | .forceKillTimer =>
      match t.status, t.killed with
      | .stopped, false =>
          { t with killed := true, signals := t.signals ++ ["SIGKILL"],
                   output := t.output ++ ["[SYSTEM] Process force-killed with SIGKILL"] }
      | _, _ => t
  | .shutdownCleanup =>
      match t.status with
      | .running =>
          { t with killed := true, signals := t.signals ++ ["SIGTERM"],
                   output := t.output ++ ["[SYSTEM] Process terminated on server shutdown"] }
      | _ => t

/-- Fold a sequence of operations over a task record. -/
def applyOps (t : Task) (ops : List TaskOp) : Task := ops.foldl applyOp t

/-- The operations that reach the buffer through addToOutput and hence are
trimmed: chunk arrivals and the exit record. -/
def trimmedOp : TaskOp → Bool
  | .stdoutChunk _ => true
  | .stderrChunk _ => true
  | .procExit _ => true
  | _ => false

/-- Lines a trimmed operation appends to the buffer. -/
def opLines : TaskOp → List String
  | .stdoutChunk d => splitLines d
  | .stderrChunk d => splitLines ("[STDERR] " ++ d)
  | .procExit c => splitLines ("[PROCESS] Process exited with code " ++ codeStr c)
  | _ => []

theorem trimTo100_length_le (out : List String) : (trimTo100 out).length ≤ 100 := by
  unfold trimTo100
  split
  · simp only [List.length_drop]
    omega
  · omega

theorem trimTo100_suffix (out : List String) : trimTo100 out <:+ out := by
  unfold trimTo100
  split
  · exact List.drop_suffix _ _
  · exact List.suffix_refl _

theorem isSuffix_append_right {α : Type} {l₁ l₂ : List α} (h : l₁ <:+ l₂) (t : List α) :
    l₁ ++ t <:+ l₂ ++ t := by
  rcases h with ⟨s, rfl⟩
  exact ⟨s, (List.append_assoc s l₁ t).symm⟩

/-- A concrete running task, as registered by executeBackgroundCommand. -/
def sampleTask : Task :=
  { id := "npm-1700000000000-abc", command := "npm", args := ["run", "dev"],
    cwd := "/proj", output := [], startTime := 0, status := .running,
    killed := false, signals := [] }

/-- A single stdout chunk carrying 100 non-empty lines. -/
def hundredLineChunk : String := joinWith "\n" (List.replicate 100 "line")

set_option maxRecDepth 20000 in
/-- Claim C1 counterexample — a running task whose buffer already holds 100 lines
is stopped; the stop handler pushes its SYSTEM termination record without
trimming (background.ts line 172), so the buffer reaches 101 lines. -/
theorem C1_counterexample :
    (applyOps sampleTask [.stdoutChunk hundredLineChunk, .stopOp false 1]).output.length
      = 101 := by
  decide

/-- Claim C1 amended — for every task and every sequence of operations that reach
the buffer through addToOutput (output chunks arriving and the process-exit
record), the output buffer never exceeds 100 lines and always forms a suffix of
the full arrival-ordered line sequence (the most recently appended lines, in
arrival order); the SYSTEM records pushed by stop-background-task and by the
shutdown cleanup bypass the trim and can push the buffer past 100. -/
theorem C1_amended_thm (t : Task) (ops : List TaskOp)
    (hops : ∀ o ∈ ops, trimmedOp o = true) (hlen : t.output.length ≤ 100) :
    (applyOps t ops).output.length ≤ 100 ∧
    (applyOps t ops).output <:+ t.output ++ (ops.map opLines).flatten := by
  induction ops generalizing t with
  | nil =>
    refine ⟨hlen, ?_⟩
    simp only [applyOps, List.foldl_nil, List.map_nil, List.flatten_nil, List.append_nil]
    exact List.suffix_refl t.output
  | cons o rest ih =>
    have ho : trimmedOp o = true := hops o (List.mem_cons_self _ _)
    have hrest : ∀ x ∈ rest, trimmedOp x = true := fun x hx => hops x (List.mem_cons_of_mem _ hx)
    obtain ⟨c, hc_out, hc_lines⟩ :
        ∃ c, (applyOp t o).output = addToOutput t.output c ∧ splitLines c = opLines o := by
      cases o with
      | stdoutChunk d => exact ⟨d, rfl, rfl⟩
      | stderrChunk d => exact ⟨"[STDERR] " ++ d, rfl, rfl⟩
      | procExit code => exact ⟨"[PROCESS] Process exited with code " ++ codeStr code, rfl, rfl⟩
      | stopOp f r => simp [trimmedOp] at ho
      | forceKillTimer => simp [trimmedOp] at ho
      | shutdownCleanup => simp [trimmedOp] at ho
    have h1 : (applyOp t o).output.length ≤ 100 := by
      rw [hc_out]
      exact trimTo100_length_le _
    have hih := ih (applyOp t o) hrest h1
    have hstep : applyOps t (o :: rest) = applyOps (applyOp t o) rest := rfl
    refine ⟨by rw [hstep]; exact hih.1, ?_⟩
    have hsfx : (applyOp t o).output <:+ t.output ++ opLines o := by
      rw [hc_out, ← hc_lines]
      exact trimTo100_suffix _
    have h2 : (applyOp t o).output ++ (rest.map opLines).flatten <:+
        (t.output ++ opLines o) ++ (rest.map opLines).flatten :=
      isSuffix_append_right hsfx _
    have h3 : (t.output ++ opLines o) ++ (rest.map opLines).flatten
        = t.output ++ ((o :: rest).map opLines).flatten := by
      rw [List.map_cons, List.flatten_cons, List.append_assoc]
    rw [hstep, ← h3]
    exact hih.2.trans h2

/-- Witness for the amended C1: two chunks totalling 150 lines leave exactly the
last 100 lines, a suffix of the arrivals. -/
theorem C1_amended_witness :
    (applyOps sampleTask [.stdoutChunk hundredLineChunk,
        .stderrChunk (joinWith "\n" (List.replicate 50 "e")), .procExit (some 0)]).output.length
        ≤ 100 ∧
    (applyOps sampleTask [.stdoutChunk hundredLineChunk,
        .stderrChunk (joinWith "\n" (List.replicate 50 "e")), .procExit (some 0)]).output
      <:+ sampleTask.output ++
        (([TaskOp.stdoutChunk hundredLineChunk,
           TaskOp.stderrChunk (joinWith "\n" (List.replicate 50 "e")),
           TaskOp.procExit (some 0)]).map opLines).flatten :=
  C1_amended_thm sampleTask
    [.stdoutChunk hundredLineChunk, .stderrChunk (joinWith "\n" (List.replicate 50 "e")),
     .procExit (some 0)]
    (by decide) (by decide)

/-! ## Termination escalation (claim C2) -/

/-- The executor view of the child process: killed is the Node
ChildProcess.killed flag, set once kill() has successfully delivered a signal;
signals records the signals delivered. -/
structure ChildProc where
  killed : Bool
  signals : List String

/-- Node child.kill(sig) when the delivery succeeds. -/
def procKill (p : ChildProc) (sig : String) : ChildProc :=
  { killed := true, signals := p.signals ++ [sig] }

/-- The graceful signal of the executor timeout handler (utils.ts line 25). -/
def execTimeoutKill (p : ChildProc) : ChildProc := procKill p "SIGTERM"

/-- The escalation timer of the executor, 5 s later (utils.ts lines 26-30):
send SIGKILL only when the killed flag is still false. -/
def execEscalation (p : ChildProc) : ChildProc :=
  if !p.killed then procKill p "SIGKILL" else p

/-- Claim C2 — behaviour of the code: after a successful graceful signal the
killed flag is true, so neither escalation path ever sends SIGKILL. The executor
escalation after its timeout SIGTERM delivers nothing further, and the
stop-background-task escalation timer is a no-op on the state the graceful stop
leaves behind, no matter whether the process has actually exited. -/
theorem C2_escalation_never_fires (p : ChildProc) (t : Task) (rt : Nat) :
    (execEscalation (execTimeoutKill p)).signals = p.signals ++ ["SIGTERM"]
    ∧ (t.status = Status.running →
        applyOp (applyOp t (.stopOp false rt)) .forceKillTimer
          = applyOp t (.stopOp false rt)) := by
  constructor
  · rfl
  · intro ht
    simp [applyOp, ht]

/-- Witness for C2 at a fresh process and a running task. -/
theorem C2_escalation_never_fires_witness :
    (execEscalation (execTimeoutKill ⟨false, []⟩)).signals = ([] : List String) ++ ["SIGTERM"]
    ∧ applyOp (applyOp sampleTask (.stopOp false 5)) .forceKillTimer
        = applyOp sampleTask (.stopOp false 5) :=
  ⟨(C2_escalation_never_fires ⟨false, []⟩ sampleTask 5).1,
   (C2_escalation_never_fires ⟨false, []⟩ sampleTask 5).2 rfl⟩

/-! ## Task registry and the stop-background-task handler (claim C9) -/

/-- The backgroundTasks map (part_003 line 4), as an association list from task
id to task record. -/
abbrev Registry := List (String × Task)

/-- Map lookup backgroundTasks.get(taskId). -/
def regGet (reg : Registry) (taskId : String) : Option Task :=
  (reg.find? (fun p => p.1 == taskId)).map (fun p => p.2)

/-- In-place mutation of the record stored under taskId. -/
def regSet (reg : Registry) (taskId : String) (t : Task) : Registry :=
  reg.map (fun p => if p.1 == taskId then (p.1, t) else p)

/-- Outcome reported by the stop-background-task handler. -/
inductive StopOutcome where
  | notFound (availableIds : List String)
  | alreadyTerminal (st : Status)
  | stoppedOk (signal : String)
  | killFailed

/-- Result of one stop-background-task call: the registry afterwards, the
reported outcome, and the signals sent during the call. -/
structure StopResult where
  registry : Registry
  outcome : StopOutcome
  signalsSent : List String

/-- The stop-background-task handler (background.ts lines 139-212). `runtime` is
the elapsed-seconds value it computes and `killOk` tells whether the
process.kill call succeeded; when it throws, the catch block reports failure
with nothing mutated. -/
def stopBackground (reg : Registry) (taskId : String) (force : Bool)
    (runtime : Nat) (killOk : Bool) : StopResult :=
  match regGet reg taskId with
  | none =>
      { registry := reg, outcome := .notFound (reg.map (fun p => p.1)), signalsSent := [] }
  | some task =>
    match task.status with
    | .stopped => { registry := reg, outcome := .alreadyTerminal .stopped, signalsSent := [] }
    | .failed => { registry := reg, outcome := .alreadyTerminal .failed, signalsSent := [] }
    | .running =>
      if killOk then
        { registry := regSet reg taskId (applyOp task (.stopOp force runtime)),
          outcome := .stoppedOk (if force then "SIGKILL" else "SIGTERM"),
          signalsSent := [if force then "SIGKILL" else "SIGTERM"] }
      else
        { registry := reg, outcome := .killFailed, signalsSent := [] }

/-- Claim C9 — whenever stop-background-task fails because the id is unknown or
the task is not running, the registry (and hence every task record) is returned
unchanged and no signal is sent. -/
theorem C9_failed_stop_no_mutation (reg : Registry) (taskId : String)
    (force killOk : Bool) (runtime : Nat)
    (h : ∀ t, regGet reg taskId = some t → t.status ≠ Status.running) :
    (stopBackground reg taskId force runtime killOk).registry = reg ∧
    (stopBackground reg taskId force runtime killOk).signalsSent = [] := by
  cases hg : regGet reg taskId with
  | none => simp [stopBackground, hg]
  | some task =>
    cases hs : task.status with
    | running => exact absurd hs (h task hg)
    | stopped => simp [stopBackground, hg, hs]
    | failed => simp [stopBackground, hg, hs]

/-- Witness for C9: stopping an id absent from the registry and stopping an
already-stopped task both leave the registry untouched. -/
theorem C9_failed_stop_no_mutation_witness :
    ((stopBackground [] "missing" false 0 true).registry = ([] : Registry) ∧
      (stopBackground [] "missing" false 0 true).signalsSent = []) ∧
    ((stopBackground [("a", applyOp sampleTask (.stopOp false 0))] "a" false 1 true).registry
        = [("a", applyOp sampleTask (.stopOp false 0))] ∧
      (stopBackground [("a", applyOp sampleTask (.stopOp false 0))] "a" false 1 true).signalsSent
        = []) :=
  ⟨C9_failed_stop_no_mutation [] "missing" false true 0
      (by intro t ht; simp [regGet] at ht),
   C9_failed_stop_no_mutation [("a", applyOp sampleTask (.stopOp false 0))] "a" false true 1
      (by intro t ht; simp [regGet, List.find?, sampleTask, applyOp] at ht; simp [← ht])⟩

/-! ## Foreground executor (executeCommand, part_006 lines 4-70) -/

/-- Result record of one command invocation (types.ts lines 1-5). -/
structure ExecResult where
  stdout : String
  stderr : String
  success : Bool

/-- The events the promise body of executeCommand reacts to: data callbacks,
the close and exit notifications with their nullable status code, the timeout
timer, and the spawn-error callback. A trace is the arrival order at the event
loop. -/
inductive ExecEvent where
  | stdoutData (s : String)
  | stderrData (s : String)
  | closeEv (code : Option Int)
  | exitEv (code : Option Int)
  | timeoutEv
  | errorEv (msg : String)

/-- Data events accumulate output; every other event resolves. -/
def isDataEvent : ExecEvent → Bool
  | .stdoutData _ => true
  | .stderrData _ => true
  | _ => false

/-- The condition of claim C6 on the resolving event: a process close or exit
with status code 0 (and so in particular not a timeout). -/
def exitedZero : ExecEvent → Bool
  | .closeEv c => c == (some 0 : Option Int)
  | .exitEv c => c == (some 0 : Option Int)
  | _ => false

/-- Mutable state of the executor promise body: the two growing buffers and the
resolved flag together with the value passed to resolve. -/
structure ExecState where
  stdout : String
  stderr : String
  result : Option ExecResult

/-- The resolveOnce guard (part_006 lines 16-21). -/
def resolveOnce (st : ExecState) (r : ExecResult) : ExecState :=
  match st.result with
  | some _ => st
  | none => { st with result := some r }

/-- One event-loop callback of executeCommand (part_006 lines 23-69). The kill
signals sent by the timeout branch are modelled by execTimeoutKill and
execEscalation above. -/
def execStep (timeoutMs : Nat) (st : ExecState) : ExecEvent → ExecState
  | .stdoutData s => { st with stdout := st.stdout ++ s }
  | .stderrData s => { st with stderr := st.stderr ++ s }
  | .closeEv c =>
      resolveOnce st { stdout := trimString st.stdout, stderr := trimString st.stderr,
                       success := c == (some 0 : Option Int) }
  | .exitEv c =>
      resolveOnce st { stdout := trimString st.stdout, stderr := trimString st.stderr,
                       success := c == (some 0 : Option Int) }
  | .timeoutEv =>
      resolveOnce st
        { stdout := trimString st.stdout,
          stderr := trimString (st.stderr ++ "\n⚠️  Command timed out (after "
              ++ toString (timeoutMs / 1000) ++ " seconds)"),
          success := false }
  | .errorEv m => resolveOnce st { stdout := "", stderr := m, success := false }

/-- Initial state of one invocation (part_006 lines 12-14). -/
def execInitState : ExecState := { stdout := "", stderr := "", result := none }

/-- Fold the callbacks over a trace, starting from a given state. -/
def runExecFrom (timeoutMs : Nat) (st : ExecState) (evs : List ExecEvent) : ExecState :=
  evs.foldl (execStep timeoutMs) st

/-- One executeCommand invocation observing the given event trace. -/
def runExec (timeoutMs : Nat) (evs : List ExecEvent) : ExecState :=
  runExecFrom timeoutMs execInitState evs

theorem execStep_data_result (tm : Nat) (st : ExecState) (e : ExecEvent)
    (he : isDataEvent e = true) : (execStep tm st e).result = st.result := by
  cases e <;> simp_all [execStep, isDataEvent]

theorem runExecFrom_resolved (tm : Nat) (st : ExecState) (evs : List ExecEvent)
    (r : ExecResult) (h : st.result = some r) :
    (runExecFrom tm st evs).result = some r := by
  induction evs generalizing st with
  | nil => exact h
  | cons e rest ih =>
    have hstep : (execStep tm st e).result = some r := by
      cases e <;> simp [execStep, resolveOnce, h]
    exact ih (execStep tm st e) hstep

theorem runExecFrom_data_result (tm : Nat) (st : ExecState) (evs : List ExecEvent)
    (h : ∀ e ∈ evs, isDataEvent e = true) :
    (runExecFrom tm st evs).result = st.result := by
  induction evs generalizing st with
  | nil => rfl
  | cons e rest ih =>
    have he := h e (List.mem_cons_self _ _)
    have hrest := ih (execStep tm st e) (fun x hx => h x (List.mem_cons_of_mem _ hx))
    exact hrest.trans (execStep_data_result tm st e he)

theorem execStep_resolves_success (tm : Nat) (st : ExecState) (e : ExecEvent)
    (hres : st.result = none) (he : isDataEvent e = false) :
    ∃ r, (execStep tm st e).result = some r ∧ r.success = exitedZero e := by
  cases e with
  | stdoutData s => simp [isDataEvent] at he
  | stderrData s => simp [isDataEvent] at he
  | closeEv c =>
    refine ⟨{ stdout := trimString st.stdout, stderr := trimString st.stderr,
              success := c == (some 0 : Option Int) }, ?_, rfl⟩
    simp [execStep, resolveOnce, hres]
  | exitEv c =>
    refine ⟨{ stdout := trimString st.stdout, stderr := trimString st.stderr,
              success := c == (some 0 : Option Int) }, ?_, rfl⟩
    simp [execStep, resolveOnce, hres]
  | timeoutEv =>
    refine ⟨{ stdout := trimString st.stdout,
              stderr := trimString (st.stderr ++ "\n⚠️  Command timed out (after "
                  ++ toString (tm / 1000) ++ " seconds)"),
              success := false }, ?_, rfl⟩
    simp [execStep, resolveOnce, hres]
  | errorEv m =>
    refine ⟨{ stdout := "", stderr := m, success := false }, ?_, rfl⟩
    simp [execStep, resolveOnce, hres]

/-- Claim C6 — in any trace made of data events followed by a first resolving
event (close or exit when the run completes, or the timeout, or a spawn error),
the resolved result has success = true exactly when that resolving event is a
close or exit with status code 0; any non-zero or null code, a timeout, or a
spawn error yields success = false, whatever arrives afterwards. -/
theorem C6_success_iff (tm : Nat) (pre post : List ExecEvent) (ev : ExecEvent)
    (hpre : ∀ e ∈ pre, isDataEvent e = true) (hev : isDataEvent ev = false) :
    ((runExec tm (pre ++ ev :: post)).result.map ExecResult.success = some true)
    ↔ exitedZero ev = true := by
  have hnone : (runExecFrom tm execInitState pre).result = none :=
    (runExecFrom_data_result tm execInitState pre hpre).trans rfl
  obtain ⟨r, hr, hs⟩ := execStep_resolves_success tm _ ev hnone hev
  have hfinal : (runExec tm (pre ++ ev :: post)).result = some r := by
    have hsplit : runExec tm (pre ++ ev :: post)
        = runExecFrom tm (execStep tm (runExecFrom tm execInitState pre) ev) post := by
      simp [runExec, runExecFrom, List.foldl_append]
    rw [hsplit]
    exact runExecFrom_resolved tm _ post r hr
  rw [hfinal, ← hs]
  simp

/-- Witness for C6: a successful run with one stdout chunk and exit code 0. -/
theorem C6_success_iff_witness :
    (runExec 30000 [ExecEvent.stdoutData "ok", ExecEvent.closeEv (some 0)]).result.map
        ExecResult.success = some true :=
  (C6_success_iff 30000 [ExecEvent.stdoutData "ok"] [] (ExecEvent.closeEv (some 0))
    (by decide) (by decide)).mpr (by decide)

/-- Claim C7 — when the spawn fails, the error callback is the first event
delivered; executeCommand then resolves (it never throws) with success = false,
empty stdout and the raw error message as stderr, whatever is delivered
afterwards. -/
theorem C7_spawn_error (tm : Nat) (m : String) (post : List ExecEvent) :
    (runExec tm (.errorEv m :: post)).result
      = some { stdout := "", stderr := m, success := false } :=
  runExecFrom_resolved tm (execStep tm execInitState (.errorEv m)) post _ rfl

/-! ## Background supervisor (executeBackgroundCommand, part_003 lines 6-91) -/

/-- The events the promise body of executeBackgroundCommand reacts to. The
3-second acknowledgment timer set by the spawn callback is modelled by the
ackTimerEv event that fires later in the trace. -/
inductive BgEvent where
  | stdoutData (s : String)
  | stderrData (s : String)
  | spawnedEv
  | ackTimerEv
  | exitEv (code : Option Int)
  | errorEv (msg : String)

/-- Mutable state of one startBackground invocation: the registered task record,
the initial-output capture, and the promise resolution. -/
structure BgState where
  task : Task
  initialOutput : String
  hasOutput : Bool
  result : Option ExecResult

/-- State right after registration (part_003 lines 18-32): fresh running task,
no output captured, promise pending. -/
def bgInit (taskId command : String) (args : List String) (workingDir : String) : BgState :=
  { task := { id := taskId, command := command, args := args, cwd := workingDir,
              output := [], startTime := 0, status := .running, killed := false,
              signals := [] },
    initialOutput := "", hasOutput := false, result := none }

/-- Promise resolution: the first resolve wins. -/
def bgResolveOnce (st : BgState) (r : ExecResult) : BgState :=
  match st.result with
  | some _ => st
  | none => { st with result := some r }

/-- The startup acknowledgment text (part_003 line 46). -/
def ackStdout (st : BgState) : String :=
  "🚀 Background task started successfully!\n\n📋 Task ID: " ++ st.task.id
    ++ "\n📍 Working Directory: " ++ st.task.cwd
    ++ "\n🔧 Command: " ++ st.task.command ++ " " ++ joinWith " " st.task.args
    ++ "\n\n📋 Initial Output:\n" ++ st.initialOutput
    ++ "\n\n💡 Use \x27stop-background-task\x27 to stop or \x27get-background-output\x27 to read output."

/-- One event-loop callback of executeBackgroundCommand (part_003 lines 43-90). -/
def bgStep (st : BgState) : BgEvent → BgState
  | .stdoutData s =>
      let t := { st.task with output := addToOutput st.task.output s }
      if st.hasOutput then { st with task := t }
      else { st with task := t, initialOutput := st.initialOutput ++ s, hasOutput := true }
  | .stderrData s =>
      let t := { st.task with output := addToOutput st.task.output ("[STDERR] " ++ s) }
      if st.hasOutput then { st with task := t }
      else { st with task := t, initialOutput := st.initialOutput ++ s, hasOutput := true }
  | .spawnedEv => st
  | .ackTimerEv =>
      bgResolveOnce st { stdout := ackStdout st, stderr := "", success := true }
  | .exitEv c =>
      { st with task := { st.task with
          status := if c == (some 0 : Option Int) then .stopped else .failed,
          output := addToOutput st.task.output
            ("[PROCESS] Process exited with code " ++ codeStr c) } }
  | .errorEv m =>
      let t := { st.task with
        status := Status.failed,
        output := addToOutput st.task.output ("[ERROR] " ++ m) }
      bgResolveOnce { st with task := t }
        { stdout := "",
          stderr := "❌ Failed to start background process: " ++ m, success := false }

/-- Fold the callbacks of one startBackground invocation over a trace. -/
def runBg (st : BgState) (evs : List BgEvent) : BgState := evs.foldl bgStep st

/-- Claim C10 — when the spawn succeeds and no error event is emitted, the
promise resolves at the 3 s acknowledgment timer with success = true and the
started-successfully banner, even though the process already exited with a
non-zero (or null) code before the timer fired; the registry entry is
simultaneously failed. -/
theorem C10_ack_races_exit (taskId cmd : String) (args : List String) (dir : String)
    (c : Option Int) (hc : (c == (some 0 : Option Int)) = false) :
    ∃ r, (runBg (bgInit taskId cmd args dir) [.spawnedEv, .exitEv c, .ackTimerEv]).result
          = some r
      ∧ r.success = true
      ∧ strStartsWith r.stdout "🚀 Background task started successfully!" = true
      ∧ (runBg (bgInit taskId cmd args dir) [.spawnedEv, .exitEv c, .ackTimerEv]).task.status
          = Status.failed := by
  simp only [runBg, List.foldl_cons, List.foldl_nil, bgStep, bgInit, bgResolveOnce, hc]
  refine ⟨_, rfl, rfl, ?_, by simp⟩
  simp only [ackStdout, strStartsWith, string_data_append, List.append_assoc]
  exact chStarts_append_of _ _ _ (by decide)

/-- Witness for C10: exit code 1 right after spawn, then the timer. -/
theorem C10_ack_races_exit_witness :
    ∃ r, (runBg (bgInit "npm-1-x" "npm" ["run", "dev"] "/proj")
          [.spawnedEv, .exitEv (some 1), .ackTimerEv]).result = some r
      ∧ r.success = true
      ∧ strStartsWith r.stdout "🚀 Background task started successfully!" = true
      ∧ (runBg (bgInit "npm-1-x" "npm" ["run", "dev"] "/proj")
          [.spawnedEv, .exitEv (some 1), .ackTimerEv]).task.status = Status.failed :=
  C10_ack_races_exit "npm-1-x" "npm" ["run", "dev"] "/proj" (some 1) (by decide)

end JsMcp
